import Mathlib

/-!
Verification of the BART departures client (`departures.py`).

The single operation of interest is `get_departures`, which either uses a
supplied test fixture (a pre-parsed JSON document) or issues one HTTP GET to
the BART "estimated time of departure" endpoint, then navigates the fixed
schema path `root / station[0] / etd`, and flattens the nested estimate
groups into a list of integer minutes, substituting 0 when `int(...)` raises
`ValueError` (the "Leaving" sentinel).

The embedding below models:
  * JSON documents as the inductive `Json` (JSON numbers are modelled as
    integers; the fixtures and responses relevant here only carry strings,
    objects and arrays in the fields the code reads);
  * Python exceptions as the `PyExc` type, with `Except PyExc` results:
    subscripting a dict with a missing key is `keyError`, subscripting or
    iterating a non-subscriptable / non-iterable value is `typeError`,
    `int()` on a non-numeric string is `valueError`, and any
    `requests.exceptions.RequestException` is `requestException`;
  * the HTTP transport as an explicit function argument from the query
    parameters to either a parsed JSON body or a failure (connection error,
    timeout, or a non-2xx status turned into an exception by
    `raise_for_status`; a body that fails to parse as JSON is also raised
    as a `RequestException` by `r.json()`);
  * the observable effects (the issued request's parameters, stdout lines
    from `verbose`, stderr lines from the error handler) as fields of the
    returned `PyOutcome`.
-/

set_option autoImplicit false

deriving instance DecidableEq for Except

namespace Bart

/-- JSON values, as produced by `json.load` / `r.json()`.
Numbers are modelled as integers. -/
inductive Json where
  | null : Json
  | bool : Bool → Json
  | num : Int → Json
  | str : String → Json
  | arr : List Json → Json
  | obj : List (String × Json) → Json

/-- Python exception classes distinguished by the handlers in
`get_departures`: the inner `except ValueError`, the navigation's bare
`except:` (which catches everything), and the outer
`except requests.exceptions.RequestException`. -/
inductive PyExc where
  | keyError : PyExc
  | indexError : PyExc
  | typeError : PyExc
  | valueError : PyExc
  | requestException : PyExc
  deriving DecidableEq

/-- First-match lookup in a JSON object's key/value list (Python dict keys
are unique, so first-match agrees with dict lookup). -/
def lookupKey : List (String × Json) → String → Option Json
  | [], _ => none
  | (k, v) :: rest, key => if k = key then some v else lookupKey rest key

/-- Digit run of a Python integer literal: at least one digit, with single
underscores allowed between digits (as accepted by Python's `int`). -/
def pyDigits : List Char → Nat → Option Nat
  | [], acc => some acc
  | '_' :: c :: cs, acc =>
      if c.isDigit then pyDigits cs (acc * 10 + (c.toNat - 48)) else none
  | ['_'], _ => none
  | c :: cs, acc =>
      if c.isDigit then pyDigits cs (acc * 10 + (c.toNat - 48)) else none

/-- Surrounding-whitespace stripping, as Python's `int` applies to its
string argument. -/
def stripChars (cs : List Char) : List Char :=
  ((cs.dropWhile Char.isWhitespace).reverse.dropWhile Char.isWhitespace).reverse

/-- Python `int(s)` on a string: strip surrounding whitespace, optional
sign, then a digit run; `none` models `ValueError`. -/
def pyIntOfString (s : String) : Option Int :=
  match stripChars s.data with
  | '+' :: c :: cs =>
      if c.isDigit then (pyDigits cs (c.toNat - 48)).map Int.ofNat else none
  | '-' :: c :: cs =>
      if c.isDigit then (pyDigits cs (c.toNat - 48)).map (fun n => -(n : Int))
      else none
  | c :: cs =>
      if c.isDigit then (pyDigits cs (c.toNat - 48)).map Int.ofNat else none
  | [] => none

/-- Python `int(x)` on a JSON value: numeric strings parse, the sentinel
and other non-numeric strings raise `ValueError`, booleans coerce, numbers
pass through, and `None` / lists / dicts raise `TypeError`. -/
def pyInt : Json → Except PyExc Int
  | .str s =>
      match pyIntOfString s with
      | some n => .ok n
      | none => .error .valueError
  | .num n => .ok n
  | .bool b => .ok (if b then 1 else 0)
  | .null => .error .typeError
  | .arr _ => .error .typeError
  | .obj _ => .error .typeError

/-- Python subscript `x[key]` with a string key: only dicts succeed;
a missing key is `KeyError`, any non-dict is `TypeError`. -/
def pySubscriptStr : Json → String → Except PyExc Json
  | .obj kvs, key =>
      match lookupKey kvs key with
      | some v => .ok v
      | none => .error .keyError
  | .null, _ => .error .typeError
  | .bool _, _ => .error .typeError
  | .num _, _ => .error .typeError
  | .str _, _ => .error .typeError
  | .arr _, _ => .error .typeError

/-- Python subscript `x[i]` with a non-negative integer index: lists and
strings index positionally (`IndexError` when out of range), dicts look the
integer up as a key (always `KeyError` here, since JSON object keys are
strings), anything else is `TypeError`. -/
def pySubscriptNat : Json → Nat → Except PyExc Json
  | .arr l, i =>
      match l.get? i with
      | some v => .ok v
      | none => .error .indexError
  | .str s, i =>
      match s.data.get? i with
      | some c => .ok (.str (String.mk [c]))
      | none => .error .indexError
  | .obj _, _ => .error .keyError
  | .null, _ => .error .typeError
  | .bool _, _ => .error .typeError
  | .num _, _ => .error .typeError

/-- Python iteration `for x in v`: lists yield their elements, strings
their one-character substrings, dicts their keys; other values raise
`TypeError`. -/
def pyIter : Json → Except PyExc (List Json)
  | .arr l => .ok l
  | .str s => .ok (s.data.map fun c => .str (String.mk [c]))
  | .obj kvs => .ok (kvs.map fun kv => .str kv.1)
  | .null => .error .typeError
  | .bool _ => .error .typeError
  | .num _ => .error .typeError

/-- The navigation `resp["root"]["station"][0]["etd"]` as it executes, any
step possibly raising. -/
def getDepListE (resp : Json) : Except PyExc Json :=
  (pySubscriptStr resp "root").bind fun a =>
  (pySubscriptStr a "station").bind fun b =>
  (pySubscriptNat b 0).bind fun c =>
  pySubscriptStr c "etd"

/-- The `try: depList = resp[...] except: depList = []` block: any raise
during navigation yields the empty list. -/
def getDepList (resp : Json) : Json :=
  match getDepListE resp with
  | .ok v => v
  | .error _ => .arr []

/-- The inner loop `for depData in dep["estimate"]`, threading the
`minutesList` accumulator: `depData["minutes"]` may raise (uncaught here),
`int(...)` is wrapped in `try ... except ValueError: m = 0`. -/
def loopEntries : List Json → List Int → Except PyExc (List Int)
  | [], acc => .ok acc
  | depData :: rest, acc =>
      match pySubscriptStr depData "minutes" with
      | .error e => .error e
      | .ok v =>
          match pyInt v with
          | .ok n => loopEntries rest (acc ++ [n])
          | .error .valueError => loopEntries rest (acc ++ [0])
          | .error e => .error e

/-- The outer loop `for dep in depList`: `dep["estimate"]` and its
iteration may raise (uncaught by the inner handler). -/
def loopGroups : List Json → List Int → Except PyExc (List Int)
  | [], acc => .ok acc
  | dep :: rest, acc =>
      match pySubscriptStr dep "estimate" with
      | .error e => .error e
      | .ok est =>
          match pyIter est with
          | .error e => .error e
          | .ok entries =>
              match loopEntries entries acc with
              | .error e => .error e
              | .ok acc2 => loopGroups rest acc2

/-- The whole extraction phase of `get_departures` on a response document:
navigate (with the bare-except fallback), then flatten the minutes. -/
def fixtureMinutes (resp : Json) : Except PyExc (List Int) :=
  match pyIter (getDepList resp) with
  | .error e => .error e
  | .ok deps => loopGroups deps []

/-- The BART ETD endpoint URL (`bartURL` in the source). -/
def bartURL : String := "http://api.bart.gov/api/etd.aspx"

/-- The `reqParams` dictionary built on the live-network path. -/
def mkReqParams (origin direction : String) : List (String × String) :=
  [("cmd", "etd"), ("orig", origin), ("dir", direction),
   ("key", "MW9S-E7SL-26DU-VV8V"), ("json", "y")]

/-- Outcome of the HTTP transport: either a parsed JSON body from a
successful (2xx) response, or a raised `requests` exception (connection
error, timeout, non-success status via `raise_for_status`, or an
unparsable body via `r.json()`), carrying its message. -/
inductive TransportResult where
  | success : Json → TransportResult
  | failure : String → TransportResult

/-- Everything observable about one call of `get_departures`: the Python
return value or escaped exception, the parameter sets of the requests it
issued, and the lines it printed to stdout and stderr. -/
structure PyOutcome where
  result : Except PyExc (Option (List Int))
  requested : List (List (String × String))
  stdout : List String
  stderr : List String

mutual

/-- Rendering of a JSON document (the shape `json.dumps` prints when
`verbose` is set; only its dependence on the document matters here). -/
def dumpJson : Json → String
  | .null => "null"
  | .bool b => if b then "true" else "false"
  | .num n => toString n
  | .str s => "\x22" ++ s ++ "\x22"
  | .arr l => "[" ++ dumpJsonList l ++ "]"
  | .obj kvs => "\x7b" ++ dumpJsonObj kvs ++ "\x7d"

def dumpJsonList : List Json → String
  | [] => ""
  | [x] => dumpJson x
  | x :: xs => dumpJson x ++ ", " ++ dumpJsonList xs

def dumpJsonObj : List (String × Json) → String
  | [] => ""
  | [kv] => "\x22" ++ kv.1 ++ "\x22: " ++ dumpJson kv.2
  | kv :: kvs => "\x22" ++ kv.1 ++ "\x22: " ++ dumpJson kv.2 ++ ", " ++ dumpJsonObj kvs

end

/-- The fully-qualified request URL printed by `verbose` (`r.url`). -/
def renderUrl (ps : List (String × String)) : String :=
  bartURL ++ "?" ++ String.intercalate "&" (ps.map fun p => p.1 ++ "=" ++ p.2)

/-- First line printed to stderr by the `RequestException` handler. -/
def errHeader : String := "[!] Error: could not complete the request."

/-- Shallow embedding of `get_departures(origin, direction, testcase,
verbose)`. The transport is passed explicitly; on the fixture path it is
never consulted. `result` is `.ok (some l)` for a normal return of the
list `l`, `.ok none` for a `return None` out of the `RequestException`
handler, and `.error e` for a Python exception escaping the function. -/
def get_departures (origin direction : String) (testcase : Option Json)
    (verbose : Bool)
    (transport : List (String × String) → TransportResult) : PyOutcome :=
  match testcase with
  | some resp =>
      let vOut := if verbose then [dumpJson resp] else []
      match fixtureMinutes resp with
      | .ok l => ⟨.ok (some l), [], vOut, []⟩
      | .error .requestException => ⟨.ok none, [], vOut, [errHeader]⟩
      | .error e => ⟨.error e, [], vOut, []⟩
  | none =>
      let ps := mkReqParams origin direction
      match transport ps with
      | .failure msg => ⟨.ok none, [ps], [], [errHeader, msg]⟩
      | .success resp =>
          let vOut :=
            (if verbose then [renderUrl ps] else []) ++
            (if verbose then [dumpJson resp] else [])
          match fixtureMinutes resp with
          | .ok l => ⟨.ok (some l), [ps], vOut, []⟩
          | .error .requestException => ⟨.ok none, [ps], vOut, [errHeader]⟩
          | .error e => ⟨.error e, [ps], vOut, []⟩

/-- The minute value the code extracts from one `minutes` string: the
parsed integer, or 0 when parsing raises `ValueError`. -/
def pyMinute (s : String) : Int :=
  match pyIntOfString s with
  | some n => n
  | none => 0

/-- A well-formed estimate entry: an object whose `minutes` field is a
string (numeric or sentinel), as in the BART schema. -/
def mkEntry (s : String) : Json :=
  .obj [("minutes", .str s)]

/-- A well-formed estimate group: an object with an `estimate` array of
well-formed entries. -/
def mkGroup (g : List String) : Json :=
  .obj [("estimate", .arr (g.map mkEntry))]

/-- A well-formed fixture document: `root / station[0] / etd` is an array
of well-formed groups, one per destination. -/
def mkFixture (gss : List (List String)) : Json :=
  .obj [("root", .obj [("station",
    .arr [.obj [("etd", .arr (gss.map mkGroup))]])])]

/-- A transport whose every request fails (connection refused). -/
def failTransport : List (String × String) → TransportResult :=
  fun _ => .failure "connection refused"

/-- A fixture whose single estimate entry has `"minutes": null`: the
schema path is intact, but `int(None)` raises `TypeError`, which neither
the inner `except ValueError` nor the outer
`except requests.exceptions.RequestException` catches. -/
def badFixture : Json :=
  .obj [("root", .obj [("station", .arr [.obj [("etd",
    .arr [.obj [("estimate", .arr [.obj [("minutes", Json.null)]])]])]])])]

/-- Processing one well-formed entry appends `pyMinute` of its minutes
string to the accumulator. -/
theorem loopEntries_cons_mkEntry (s : String) (rest : List Json)
    (acc : List Int) :
    loopEntries (mkEntry s :: rest) acc = loopEntries rest (acc ++ [pyMinute s]) := by
  have h1 : pySubscriptStr (mkEntry s) "minutes" = .ok (.str s) := rfl
  simp only [loopEntries, h1]
  cases h : pyIntOfString s <;> simp [pyInt, pyMinute, h]

/-- The inner loop over a list of well-formed entries appends their parsed
minutes, in order. -/
theorem loopEntries_map_mkEntry (g : List String) :
    ∀ acc : List Int, loopEntries (g.map mkEntry) acc = .ok (acc ++ g.map pyMinute) := by
  induction g with
  | nil => intro acc; simp [loopEntries]
  | cons s g ih =>
      intro acc
      simp [loopEntries_cons_mkEntry, ih]

/-- Processing one well-formed group appends its parsed minutes to the
accumulator. -/
theorem loopGroups_cons_mkGroup (g : List String) (rest : List Json)
    (acc : List Int) :
    loopGroups (mkGroup g :: rest) acc = loopGroups rest (acc ++ g.map pyMinute) := by
  have h1 : pySubscriptStr (mkGroup g) "estimate" = .ok (.arr (g.map mkEntry)) := rfl
  simp only [loopGroups, h1, pyIter, loopEntries_map_mkEntry]

/-- The outer loop over a list of well-formed groups appends the
concatenation of all their parsed minutes, group by group, in order. -/
theorem loopGroups_map_mkGroup (gss : List (List String)) :
    ∀ acc : List Int,
      loopGroups (gss.map mkGroup) acc = .ok (acc ++ gss.flatten.map pyMinute) := by
  induction gss with
  | nil => intro acc; simp [loopGroups]
  | cons g gss ih =>
      intro acc
      simp [loopGroups_cons_mkGroup, ih]

/-- Extraction on a well-formed fixture returns exactly the flattened
parsed minutes, in document traversal order, raising nothing. -/
theorem fixtureMinutes_mkFixture (gss : List (List String)) :
    fixtureMinutes (mkFixture gss) = .ok (gss.flatten.map pyMinute) := by
  have h : getDepList (mkFixture gss) = .arr (gss.map mkGroup) := rfl
  simp only [fixtureMinutes, h, pyIter, loopGroups_map_mkGroup, List.nil_append]

/-- String subscripting never raises a `requests` exception. -/
theorem pySubscriptStr_no_req (j : Json) (k : String) :
    pySubscriptStr j k ≠ .error .requestException := by
  unfold pySubscriptStr
  split <;> try simp
  split <;> simp

/-- `int(...)` never raises a `requests` exception. -/
theorem pyInt_no_req (j : Json) : pyInt j ≠ .error .requestException := by
  unfold pyInt
  split <;> try simp
  split <;> simp

/-- Iteration never raises a `requests` exception. -/
theorem pyIter_no_req (j : Json) : pyIter j ≠ .error .requestException := by
  unfold pyIter
  split <;> simp

/-- The inner entry loop never raises a `requests` exception. -/
theorem loopEntries_no_req (l : List Json) :
    ∀ acc : List Int, loopEntries l acc ≠ .error .requestException := by
  induction l with
  | nil => intro acc; simp [loopEntries]
  | cons depData rest ih =>
      intro acc
      cases h : pySubscriptStr depData "minutes" with
      | error e =>
          simp only [loopEntries, h]
          intro hc
          injection hc with he
          subst he
          exact pySubscriptStr_no_req depData "minutes" h
      | ok v =>
          cases h2 : pyInt v with
          | ok n => simp only [loopEntries, h, h2]; exact ih _
          | error e =>
              cases e with
              | valueError => simp only [loopEntries, h, h2]; exact ih _
              | requestException => exact absurd h2 (pyInt_no_req v)
              | keyError => simp [loopEntries, h, h2]
              | indexError => simp [loopEntries, h, h2]
              | typeError => simp [loopEntries, h, h2]

/-- The outer group loop never raises a `requests` exception. -/
theorem loopGroups_no_req (l : List Json) :
    ∀ acc : List Int, loopGroups l acc ≠ .error .requestException := by
  induction l with
  | nil => intro acc; simp [loopGroups]
  | cons dep rest ih =>
      intro acc
      cases h : pySubscriptStr dep "estimate" with
      | error e =>
          simp only [loopGroups, h]
          intro hc
          injection hc with he
          subst he
          exact pySubscriptStr_no_req dep "estimate" h
      | ok est =>
          cases h2 : pyIter est with
          | error e =>
              simp only [loopGroups, h, h2]
              intro hc
              injection hc with he
              subst he
              exact pyIter_no_req est h2
          | ok entries =>
              cases h3 : loopEntries entries acc with
              | error e =>
                  simp only [loopGroups, h, h2, h3]
                  intro hc
                  injection hc with he
                  subst he
                  exact loopEntries_no_req entries acc h3
              | ok acc2 => simp only [loopGroups, h, h2, h3]; exact ih _

/-- Fixture processing never raises a `requests` exception: the only
exception class the outer handler catches cannot arise without a live
request. -/
theorem fixtureMinutes_no_req (resp : Json) :
    fixtureMinutes resp ≠ .error .requestException := by
  unfold fixtureMinutes
  cases h : pyIter (getDepList resp) with
  | error e =>
      simp only [h]
      intro hc
      injection hc with he
      subst he
      exact pyIter_no_req (getDepList resp) h
  | ok deps =>
      simp only [h]
      exact loopGroups_no_req deps []

/-- C1: for every well-formed fixture document with estimate groups
`gss` (so `N = (gss.map List.length).sum` estimate entries in total),
`get_departures` returns exactly the `N` parsed minutes, ordered by
destination group first and then by entry position within each group
(document traversal order). -/
theorem get_departures_fixture_flatten (o d : String) (v : Bool)
    (t : List (String × String) → TransportResult) (gss : List (List String)) :
    (get_departures o d (some (mkFixture gss)) v t).result
        = .ok (some (gss.flatten.map pyMinute))
      ∧ (gss.flatten.map pyMinute).length = (gss.map List.length).sum := by
  refine ⟨?_, by simp [Function.comp_def]⟩
  simp only [get_departures, fixtureMinutes_mkFixture]

/-- C2: `get_departures` parses each entry's `minutes` field with `int`:
a numeric string yields its integer value (e.g. `"12"` yields `12`), a
non-numeric sentinel string (e.g. `"Leaving"`) yields exactly `0`, and the
fixture with groups `["3", "7"]` and `["Leaving"]` yields `[3, 7, 0]`. -/
theorem get_departures_minutes_parse :
    (∀ (o d : String) (v : Bool) (t : List (String × String) → TransportResult)
        (s : String) (n : Int), pyIntOfString s = some n →
        (get_departures o d (some (mkFixture [[s]])) v t).result = .ok (some [n]))
      ∧ (∀ (o d : String) (v : Bool) (t : List (String × String) → TransportResult)
        (s : String), pyIntOfString s = none →
        (get_departures o d (some (mkFixture [[s]])) v t).result = .ok (some [0]))
      ∧ pyIntOfString "12" = some 12
      ∧ pyIntOfString "Leaving" = none
      ∧ (∀ (o d : String) (v : Bool) (t : List (String × String) → TransportResult),
        (get_departures o d (some (mkFixture [["3", "7"], ["Leaving"]])) v t).result
          = .ok (some [3, 7, 0])) := by
  refine ⟨?_, ?_, by decide, by decide, ?_⟩
  · intro o d v t s n h
    simp only [get_departures, fixtureMinutes_mkFixture]
    simp [pyMinute, h]
  · intro o d v t s h
    simp only [get_departures, fixtureMinutes_mkFixture]
    simp [pyMinute, h]
  · intro o d v t
    simp only [get_departures, fixtureMinutes_mkFixture]
    decide

/-- Witness for C2 at the concrete inputs `"12"` and `"Leaving"`. -/
theorem get_departures_minutes_parse_witness :
    pyIntOfString "12" = some 12
      ∧ pyIntOfString "Leaving" = none
      ∧ (get_departures "PLZA" "s" (some (mkFixture [["12"]])) false
          failTransport).result = .ok (some [12])
      ∧ (get_departures "PLZA" "s" (some (mkFixture [["Leaving"]])) false
          failTransport).result = .ok (some [0]) :=
  ⟨by decide, by decide,
   get_departures_minutes_parse.1 "PLZA" "s" false failTransport "12" 12 (by decide),
   get_departures_minutes_parse.2.1 "PLZA" "s" false failTransport "Leaving" (by decide)⟩

/-- C3: on the live-network path, any transport failure (connection error,
timeout, or non-success HTTP status raised by `raise_for_status`) is
caught: the call returns the distinguished `None` (not an empty list, no
exception escaping) and prints a diagnostic to stderr. -/
theorem get_departures_transport_failure (o d : String) (v : Bool)
    (t : List (String × String) → TransportResult) (msg : String)
    (h : t (mkReqParams o d) = .failure msg) :
    (get_departures o d none v t).result = .ok none
      ∧ (get_departures o d none v t).stderr = [errHeader, msg] := by
  constructor <;> simp only [get_departures, h]

/-- Witness for C3 with a transport that refuses every connection. -/
theorem get_departures_transport_failure_witness :
    failTransport (mkReqParams "PLZA" "s") = .failure "connection refused"
      ∧ (get_departures "PLZA" "s" none false failTransport).result = .ok none
      ∧ (get_departures "PLZA" "s" none false failTransport).stderr
          = [errHeader, "connection refused"] :=
  ⟨rfl,
   (get_departures_transport_failure "PLZA" "s" false failTransport
     "connection refused" rfl).1,
   (get_departures_transport_failure "PLZA" "s" false failTransport
     "connection refused" rfl).2⟩

/-- C4: for every fixture on which the navigation
`resp["root"]["station"][0]["etd"]` raises (the path is absent or
malformed, e.g. the document with only an empty `root` object), the bare
`except:` substitutes the empty list and `get_departures` returns the
empty sequence — not `None` and not an error. -/
theorem get_departures_missing_path_empty (resp : Json) (o d : String)
    (v : Bool) (t : List (String × String) → TransportResult) (e : PyExc)
    (h : getDepListE resp = .error e) :
    (get_departures o d (some resp) v t).result = .ok (some []) := by
  have hd : getDepList resp = .arr [] := by simp [getDepList, h]
  have hf : fixtureMinutes resp = .ok [] := by
    simp [fixtureMinutes, hd, pyIter, loopGroups]
  simp only [get_departures, hf]

/-- Witness for C4 at the fixture from the spec, the document with an
empty root object. -/
theorem get_departures_missing_path_empty_witness :
    getDepListE (Json.obj [("root", Json.obj [])]) = .error .keyError
      ∧ (get_departures "PLZA" "s" (some (Json.obj [("root", Json.obj [])]))
          false failTransport).result = .ok (some []) :=
  ⟨rfl,
   get_departures_missing_path_empty (Json.obj [("root", Json.obj [])])
     "PLZA" "s" false failTransport .keyError rfl⟩

/-- C5 counterexample: the claim that no error ever escapes
`get_departures` for every fixture whatsoever is false. On the fixture
whose single entry has `"minutes": null`, `int(None)` raises `TypeError`;
the inner handler catches only `ValueError` and the outer handler only
`requests.exceptions.RequestException`, so the `TypeError` escapes the
operation boundary and the caller observes neither a list nor `None`. -/
theorem get_departures_null_minutes_raises :
    (get_departures "RICH" "s" (some badFixture) false failTransport).result
      = .error .typeError := by
  decide

/-- C5 amended: on fixtures whose groups are objects carrying an
`estimate` array of entry objects whose `minutes` field is a string, no
error escapes (unparsable strings degrade to 0); but a `minutes` value of
a non-string type such as `null` raises an uncaught error past the
operation boundary. -/
theorem get_departures_wellformed_no_raise :
    (∀ (gss : List (List String)) (o d : String) (v : Bool)
        (t : List (String × String) → TransportResult),
        ∃ l : List Int,
          (get_departures o d (some (mkFixture gss)) v t).result = .ok (some l))
      ∧ (get_departures "RICH" "s" (some badFixture) false failTransport).result
          = .error .typeError := by
  constructor
  · intro gss o d v t
    exact ⟨gss.flatten.map pyMinute, by
      simp only [get_departures, fixtureMinutes_mkFixture]⟩
  · decide

/-- C6: every live-path call issues exactly one HTTP GET whose query
parameters are exactly `cmd=etd`, `orig=<origin>`, `dir=<direction>`,
`key=MW9S-E7SL-26DU-VV8V`, `json=y`; in particular `cmd` is the fixed
`"etd"` regardless of the inputs. -/
theorem get_departures_live_params (o d : String) (v : Bool)
    (t : List (String × String) → TransportResult) :
    (get_departures o d none v t).requested
      = [[("cmd", "etd"), ("orig", o), ("dir", d),
          ("key", "MW9S-E7SL-26DU-VV8V"), ("json", "y")]] := by
  simp only [get_departures]
  cases h : t (mkReqParams o d) with
  | failure msg => simp [mkReqParams]
  | success resp =>
      cases hf : fixtureMinutes resp with
      | ok l => simp [mkReqParams, hf]
      | error e => cases e <;> simp [mkReqParams, hf]

/-- C7: the fixture path is deterministic and stateless: two calls with
the same fixture, origin, direction and verbose flag produce identical
outcomes, whatever the ambient network environment of each call. -/
theorem get_departures_fixture_stateless (o d : String) (fix : Json)
    (v : Bool) (t₁ t₂ : List (String × String) → TransportResult) :
    get_departures o d (some fix) v t₁ = get_departures o d (some fix) v t₂ :=
  rfl

/-- C8: the `verbose` flag never influences the return value of
`get_departures` (it only adds diagnostic stdout); this holds on the
fixture path and on the live path alike. -/
theorem get_departures_verbose_result (o d : String) (tc : Option Json)
    (t : List (String × String) → TransportResult) :
    (get_departures o d tc true t).result
      = (get_departures o d tc false t).result := by
  cases tc with
  | some resp =>
      cases hf : fixtureMinutes resp with
      | ok l => simp [get_departures, hf]
      | error e => cases e <;> simp [get_departures, hf]
  | none =>
      simp only [get_departures]
      cases h : t (mkReqParams o d) with
      | failure msg => rfl
      | success resp =>
          cases hf : fixtureMinutes resp with
          | ok l => simp [hf]
          | error e => cases e <;> simp [hf]

/-- C9: with a fixture supplied, `get_departures` never returns the
distinguished `None`: it either returns a list or lets an exception
escape, because the only caught failure class on that path is
`requests.exceptions.RequestException`, which cannot arise when no
request is issued. -/
theorem get_departures_fixture_not_none (o d : String) (fix : Json)
    (v : Bool) (t : List (String × String) → TransportResult) :
    (∃ l : List Int,
        (get_departures o d (some fix) v t).result = .ok (some l))
      ∨ (∃ e : PyExc,
        (get_departures o d (some fix) v t).result = .error e) := by
  cases hf : fixtureMinutes fix with
  | ok l => exact Or.inl ⟨l, by simp [get_departures, hf]⟩
  | error e =>
      cases e with
      | requestException => exact absurd hf (fixtureMinutes_no_req fix)
      | keyError => exact Or.inr ⟨.keyError, by simp [get_departures, hf]⟩
      | indexError => exact Or.inr ⟨.indexError, by simp [get_departures, hf]⟩
      | typeError => exact Or.inr ⟨.typeError, by simp [get_departures, hf]⟩
      | valueError => exact Or.inr ⟨.valueError, by simp [get_departures, hf]⟩

/-- C10: a negative numeric minutes string such as `"-5"` parses to the
negative integer `-5` with no range validation or clamping. -/
theorem get_departures_negative_minutes :
    pyIntOfString "-5" = some (-5)
      ∧ (get_departures "PLZA" "s" (some (mkFixture [["-5"]])) false
          failTransport).result = .ok (some [-5]) :=
  ⟨by decide, by decide⟩

end Bart
